import Mathlib

/-!
Verification of the WifiSignalSimulator program.

The development gives a shallow embedding of the program's geometry function
`current_signal_distance`, its loss function `compute_free_space_loss`, the
sampling driver `main` and the command-line entry block, and proves the
specification's claims about them.  Python floats are modelled as real
numbers; a Python exception is an `Except.error` carrying the exception
message; `math.log10` is modelled as a fallible function so that its
domain error can be distinguished from errors the program raises itself.
-/

namespace WifiSignalSimulator

/-- Model of Python's two-argument Euclidean norm `math.hypot`. -/
noncomputable def hypot (x y : ℝ) : ℝ := Real.sqrt (x ^ 2 + y ^ 2)

/-- Model of Python's `math.log10`: base-10 logarithm on positive arguments,
raising `ValueError: math domain error` on non-positive ones. -/
noncomputable def mlog10 (x : ℝ) : Except String ℝ :=
  if 0 < x then Except.ok (Real.logb 10 x) else Except.error ("math domain error")

/-- Embedding of the source function `current_signal_distance` (lines 31-52):
the distance between the train and the AP indicated by its number at the given
time; an AP number other than 1 or 2 raises a ValueError. -/
noncomputable def current_signal_distance (AP_number : ℤ)
    (starting_train_distance inter_AP_distance time velocity : ℝ) :
    Except String ℝ :=
  if AP_number = 1 then
    Except.ok (hypot starting_train_distance (velocity * time))
  else if AP_number = 2 then
    Except.ok (hypot starting_train_distance (inter_AP_distance - velocity * time))
  else
    Except.error (toString AP_number ++ (" must be either 1 or 2."))

/-- The return expression of `compute_free_space_loss` (line 71) once the
wavelength has been selected: `-20*log10(wavelength) + 20*log10(distance) +
21.984`, with each logarithm fallible exactly as in Python. -/
noncomputable def fsl_return (wavelength distance : ℝ) : Except String ℝ :=
  (mlog10 wavelength).bind fun lw =>
    (mlog10 distance).bind fun ld =>
      Except.ok (-20 * lw + 20 * ld + 21.984)

/-- Embedding of the source function `compute_free_space_loss` (lines 54-71):
band `"2.4"` selects wavelength 0.12491 m, band `"5.0"` selects 0.05996 m, and
any other band raises a ValueError before any logarithm is taken. -/
noncomputable def compute_free_space_loss (distance : ℝ) (band : String) :
    Except String ℝ :=
  if band = ("2.4") then fsl_return 0.12491 distance
  else if band = ("5.0") then fsl_return 0.05996 distance
  else Except.error (band ++ (" is an unsupported frequency or is incorrectly formatted."))

/-- The closed-form loss value the spec states:
`-20*log10(wavelength) + 20*log10(distance) + 21.984`. -/
noncomputable def fslFormula (wavelength distance : ℝ) : ℝ :=
  -20 * Real.logb 10 wavelength + 20 * Real.logb 10 distance + 21.984

lemma mlog10_pos {x : ℝ} (hx : 0 < x) :
    mlog10 x = Except.ok (Real.logb 10 x) := by
  unfold mlog10
  exact if_pos hx

lemma mlog10_nonpos {x : ℝ} (hx : x ≤ 0) :
    mlog10 x = Except.error ("math domain error") := by
  unfold mlog10
  exact if_neg (not_lt.mpr hx)

lemma fsl_return_ok {w d : ℝ} (hw : 0 < w) (hd : 0 < d) :
    fsl_return w d = Except.ok (fslFormula w d) := by
  unfold fsl_return fslFormula
  rw [mlog10_pos hw, mlog10_pos hd]
  rfl

lemma cfs_24_ok {d : ℝ} (hd : 0 < d) :
    compute_free_space_loss d ("2.4") = Except.ok (fslFormula 0.12491 d) := by
  unfold compute_free_space_loss
  rw [if_pos rfl, fsl_return_ok (by norm_num) hd]

lemma cfs_50_ok {d : ℝ} (hd : 0 < d) :
    compute_free_space_loss d ("5.0") = Except.ok (fslFormula 0.05996 d) := by
  unfold compute_free_space_loss
  rw [if_neg (by decide), if_pos rfl, fsl_return_ok (by norm_num) hd]

lemma csd_one (d inter t v : ℝ) :
    current_signal_distance 1 d inter t v = Except.ok (hypot d (v * t)) := by
  unfold current_signal_distance
  rw [if_pos rfl]

lemma csd_two (d inter t v : ℝ) :
    current_signal_distance 2 d inter t v = Except.ok (hypot d (inter - v * t)) := by
  unfold current_signal_distance
  rw [if_neg (by decide), if_pos rfl]

/-- C1: for all real arguments, the distance function with AP number 1 returns
the Euclidean norm `hypot d (v*t)`, and with AP number 2 it returns
`hypot d (inter - v*t)`. -/
theorem c1_distance_formula (d inter t v : ℝ) :
    current_signal_distance 1 d inter t v = Except.ok (hypot d (v * t)) ∧
    current_signal_distance 2 d inter t v = Except.ok (hypot d (inter - v * t)) :=
  ⟨csd_one d inter t v, csd_two d inter t v⟩

/-- C2: for every strictly positive distance, the loss for band `"2.4"` is
`-20*log10(0.12491) + 20*log10 d + 21.984` and the loss for band `"5.0"` is
`-20*log10(0.05996) + 20*log10 d + 21.984`. -/
theorem c2_loss_formula (d : ℝ) (hd : 0 < d) :
    compute_free_space_loss d ("2.4") =
      Except.ok (-20 * Real.logb 10 0.12491 + 20 * Real.logb 10 d + 21.984) ∧
    compute_free_space_loss d ("5.0") =
      Except.ok (-20 * Real.logb 10 0.05996 + 20 * Real.logb 10 d + 21.984) :=
  ⟨cfs_24_ok hd, cfs_50_ok hd⟩

/-- Witness for C2 at distance 1. -/
theorem c2_loss_formula_witness :
    compute_free_space_loss 1 ("2.4") =
      Except.ok (-20 * Real.logb 10 0.12491 + 20 * Real.logb 10 1 + 21.984) ∧
    compute_free_space_loss 1 ("5.0") =
      Except.ok (-20 * Real.logb 10 0.05996 + 20 * Real.logb 10 1 + 21.984) :=
  c2_loss_formula 1 (by norm_num)

/-- C3 counterexample: at distance 0 with band `"2.4"` the function returns
exactly the logarithm's result at 0, i.e. the propagated `math domain error`,
not an invalid-argument error raised by `compute_free_space_loss` itself (its
only own raise is the unsupported-band ValueError). -/
theorem c3_counterexample :
    compute_free_space_loss 0 ("2.4") = mlog10 0 ∧
    mlog10 0 = Except.error ("math domain error") := by
  have h0 : mlog10 0 = Except.error ("math domain error") := mlog10_nonpos le_rfl
  constructor
  · unfold compute_free_space_loss
    rw [if_pos rfl]
    unfold fsl_return
    rw [mlog10_pos (by norm_num : (0:ℝ) < 0.12491), h0]
    rfl
  · exact h0

/-- C3 amended: for every non-positive distance and valid band, the function
fails, but by propagating the logarithm's `math domain error`, not by raising
an invalid-argument error of its own. -/
theorem c3_amended (d : ℝ) (band : String) (hd : d ≤ 0)
    (hb : band = ("2.4") ∨ band = ("5.0")) :
    compute_free_space_loss d band = Except.error ("math domain error") := by
  have hlog : mlog10 d = Except.error ("math domain error") := mlog10_nonpos hd
  rcases hb with hb | hb <;> subst hb <;> unfold compute_free_space_loss
  · rw [if_pos rfl]
    unfold fsl_return
    rw [mlog10_pos (by norm_num : (0:ℝ) < 0.12491), hlog]
    rfl
  · rw [if_neg (by decide), if_pos rfl]
    unfold fsl_return
    rw [mlog10_pos (by norm_num : (0:ℝ) < 0.05996), hlog]
    rfl

/-- Witness for the amended C3 at distance 0 with band `"2.4"`. -/
theorem c3_amended_witness :
    compute_free_space_loss (-1) ("2.4") = Except.error ("math domain error") :=
  c3_amended (-1) ("2.4") (by norm_num) (Or.inl rfl)

/-- C4: an AP number outside {1, 2} makes the distance function raise its
ValueError, and a band outside {"2.4", "5.0"} makes the loss function raise
its ValueError. -/
theorem c4_invalid_arguments :
    (∀ (n : ℤ) (d inter t v : ℝ), n ≠ 1 → n ≠ 2 →
      current_signal_distance n d inter t v =
        Except.error (toString n ++ (" must be either 1 or 2."))) ∧
    (∀ (d : ℝ) (band : String), band ≠ ("2.4") → band ≠ ("5.0") →
      compute_free_space_loss d band =
        Except.error (band ++ (" is an unsupported frequency or is incorrectly formatted."))) := by
  constructor
  · intro n d inter t v h1 h2
    unfold current_signal_distance
    rw [if_neg h1, if_neg h2]
  · intro d band h1 h2
    unfold compute_free_space_loss
    rw [if_neg h1, if_neg h2]

/-- Witness for C4 at AP number 0 and band `"3.0"`. -/
theorem c4_invalid_arguments_witness :
    current_signal_distance 0 10 100 0 92 =
      Except.error (toString (0 : ℤ) ++ (" must be either 1 or 2.")) ∧
    compute_free_space_loss 5 ("3.0") =
      Except.error (("3.0") ++ (" is an unsupported frequency or is incorrectly formatted.")) :=
  ⟨c4_invalid_arguments.1 0 10 100 0 92 (by decide) (by decide),
   c4_invalid_arguments.2 5 ("3.0") (by decide) (by decide)⟩

/-- C5: for each valid band, the loss function is strictly increasing in the
distance over strictly positive distances. -/
theorem c5_strict_monotone (band : String) (hb : band = ("2.4") ∨ band = ("5.0"))
    (d1 d2 : ℝ) (h1 : 0 < d1) (h12 : d1 < d2) :
    ∃ l1 l2 : ℝ, compute_free_space_loss d1 band = Except.ok l1 ∧
      compute_free_space_loss d2 band = Except.ok l2 ∧ l1 < l2 := by
  have h2 : 0 < d2 := h1.trans h12
  have hlog : Real.logb 10 d1 < Real.logb 10 d2 :=
    Real.logb_lt_logb (by norm_num) h1 h12
  rcases hb with hb | hb <;> subst hb
  · exact ⟨_, _, cfs_24_ok h1, cfs_24_ok h2, by unfold fslFormula; linarith⟩
  · exact ⟨_, _, cfs_50_ok h1, cfs_50_ok h2, by unfold fslFormula; linarith⟩

/-- Witness for C5 with band `"2.4"`, distances 1 and 10. -/
theorem c5_strict_monotone_witness :
    ∃ l1 l2 : ℝ, compute_free_space_loss 1 ("2.4") = Except.ok l1 ∧
      compute_free_space_loss 10 ("2.4") = Except.ok l2 ∧ l1 < l2 :=
  c5_strict_monotone ("2.4") (Or.inl rfl) 1 10 (by norm_num) (by norm_num)

/-- C6: at the same positive distance, the 5.0 GHz loss is strictly greater
than the 2.4 GHz loss. -/
theorem c6_band_comparison (d : ℝ) (hd : 0 < d) :
    ∃ l24 l5 : ℝ, compute_free_space_loss d ("2.4") = Except.ok l24 ∧
      compute_free_space_loss d ("5.0") = Except.ok l5 ∧ l24 < l5 := by
  have hlog : Real.logb 10 (0.05996 : ℝ) < Real.logb 10 (0.12491 : ℝ) :=
    Real.logb_lt_logb (by norm_num) (by norm_num) (by norm_num)
  exact ⟨_, _, cfs_24_ok hd, cfs_50_ok hd, by unfold fslFormula; linarith⟩

/-- Witness for C6 at distance 1. -/
theorem c6_band_comparison_witness :
    ∃ l24 l5 : ℝ, compute_free_space_loss 1 ("2.4") = Except.ok l24 ∧
      compute_free_space_loss 1 ("5.0") = Except.ok l5 ∧ l24 < l5 :=
  c6_band_comparison 1 (by norm_num)

/-- Decimal digit characters of a natural number, most significant first. -/
def natChars (n : ℕ) : List Char :=
  if _h : n < 10 then [Nat.digitChar n]
  else natChars (n / 10) ++ [Nat.digitChar (n % 10)]
termination_by n
decreasing_by exact Nat.div_lt_self (by omega) (by omega)

/-- Exactly `k` decimal digit characters of `n` modulo `10^k`, most
significant first, zero-padded: the fractional field of a fixed-point
rendering. -/
def digitsFixed (k n : ℕ) : List Char :=
  (List.range k).reverse.map fun j => Nat.digitChar (n / 10 ^ j % 10)

/-- Model of Python's fixed-point float formatting used by the driver's format
string (line 78) with `k` digits of mantissa: the value is scaled by `10^k`,
rounded to an integer, and rendered as an optional minus sign, the integer
digits, a decimal point, and exactly `k` fractional digits. -/
noncomputable def fmtFixed (k : ℕ) (x : ℝ) : String :=
  String.mk ((if round (x * 10 ^ k) < 0 then [('-')] else []) ++
    natChars ((round (x * 10 ^ k)).natAbs / 10 ^ k) ++ [('.')] ++
    digitsFixed k ((round (x * 10 ^ k)).natAbs % 10 ^ k))

lemma data_mk (l : List Char) : (String.mk l).data = l := rfl

lemma digitChar_isDigit {m : ℕ} (h : m < 10) : (Nat.digitChar m).isDigit = true := by
  revert h
  revert m
  decide

lemma mem_digitsFixed_isDigit {k n : ℕ} {c : Char} (hc : c ∈ digitsFixed k n) :
    c.isDigit = true := by
  unfold digitsFixed at hc
  simp only [List.mem_map, List.mem_reverse, List.mem_range] at hc
  obtain ⟨j, _, rfl⟩ := hc
  exact digitChar_isDigit (Nat.mod_lt _ (by norm_num))

lemma length_digitsFixed (k n : ℕ) : (digitsFixed k n).length = k := by
  unfold digitsFixed
  simp

lemma mem_natChars_isDigit : ∀ (n : ℕ) {c : Char}, c ∈ natChars n → c.isDigit = true := by
  intro n
  induction n using Nat.strong_induction_on with
  | _ n ih =>
    intro c hc
    rw [natChars] at hc
    split at hc
    · next h =>
      rw [List.mem_singleton] at hc
      subst hc
      exact digitChar_isDigit h
    · next h =>
      rw [List.mem_append] at hc
      rcases hc with hc | hc
      · exact ih (n / 10) (Nat.div_lt_self (by omega) (by omega)) hc
      · rw [List.mem_singleton] at hc
        subst hc
        exact digitChar_isDigit (Nat.mod_lt _ (by norm_num))

/-- Structural decomposition of a formatted value: an integer field holding no
decimal point, then a decimal point, then exactly `k` fractional digits. -/
lemma fmtFixed_decompose (k : ℕ) (x : ℝ) :
    ∃ p q : List Char, (fmtFixed k x).data = p ++ ('.') :: q ∧
      q.length = k ∧ (∀ c ∈ q, c.isDigit = true) ∧ ('.') ∉ p := by
  refine ⟨(if round (x * 10 ^ k) < 0 then [('-')] else []) ++
      natChars ((round (x * 10 ^ k)).natAbs / 10 ^ k),
    digitsFixed k ((round (x * 10 ^ k)).natAbs % 10 ^ k), ?_, length_digitsFixed _ _,
    fun c hc => mem_digitsFixed_isDigit hc, ?_⟩
  · unfold fmtFixed
    simp [List.append_assoc]
  · intro hp
    rw [List.mem_append] at hp
    rcases hp with hp | hp
    · split at hp
      · rw [List.mem_singleton] at hp
        exact absurd hp (by decide)
      · exact absurd hp (List.not_mem_nil _)
    · have := mem_natChars_isDigit _ hp
      exact absurd this (by decide)

/-- Every character of a formatted value is a digit, a minus sign, or a
decimal point. -/
lemma fmtFixed_chars {k : ℕ} {x : ℝ} {c : Char} (hc : c ∈ (fmtFixed k x).data) :
    c.isDigit = true ∨ c = ('-') ∨ c = ('.') := by
  unfold fmtFixed at hc
  rw [data_mk] at hc
  rw [List.mem_append, List.mem_append, List.mem_append] at hc
  rcases hc with ((hc | hc) | hc) | hc
  · split at hc
    · rw [List.mem_singleton] at hc
      exact Or.inr (Or.inl hc)
    · exact absurd hc (List.not_mem_nil _)
  · exact Or.inl (mem_natChars_isDigit _ hc)
  · rw [List.mem_singleton] at hc
    exact Or.inr (Or.inr hc)
  · exact Or.inl (mem_digitsFixed_isDigit hc)

lemma ok_bind {α β : Type} (a : α) (f : α → Except String β) :
    (Except.ok a : Except String α).bind f = f a := rfl

lemma hypot_pos {x : ℝ} (hx : 0 < x) (y : ℝ) : 0 < hypot x y := by
  unfold hypot
  apply Real.sqrt_pos.mpr
  have h1 : 0 < x ^ 2 := pow_pos hx 2
  have h2 : 0 ≤ y ^ 2 := sq_nonneg y
  linarith

/-- One iteration of the sampling loop in `main` (lines 82-88): time is the
sample index times the granularity; the AP1 distance and formatted loss are
computed first, then the AP2 distance and formatted loss, with the band left
at its default `"2.4"` exactly as in the source calls. -/
noncomputable def samplePair (ap_distance train_distance train_velocity granularity : ℝ)
    (mantissa_length t : ℕ) : Except String (String × String) :=
  (current_signal_distance 1 train_distance ap_distance ((t : ℝ) * granularity) train_velocity).bind
    fun AP1_distance => (compute_free_space_loss AP1_distance ("2.4")).bind
      fun AP1_loss =>
        (current_signal_distance 2 train_distance ap_distance ((t : ℝ) * granularity) train_velocity).bind
          fun AP2_distance => (compute_free_space_loss AP2_distance ("2.4")).bind
            fun AP2_loss =>
              Except.ok (fmtFixed mantissa_length AP1_loss, fmtFixed mantissa_length AP2_loss)

/-- The sampling loop of `main` (lines 79-88): iterations 0..n-1 run in
ascending order, each appending one formatted loss to each of the two lists;
the first raised exception propagates out of the loop. -/
noncomputable def lossLoop (ap_distance train_distance train_velocity granularity : ℝ)
    (mantissa_length : ℕ) : ℕ → Except String (List String × List String)
  | 0 => Except.ok ([], [])
  | Nat.succ t =>
    (lossLoop ap_distance train_distance train_velocity granularity mantissa_length t).bind
      fun lists =>
        (samplePair ap_distance train_distance train_velocity granularity mantissa_length t).bind
          fun p => Except.ok (lists.1 ++ [p.1], lists.2 ++ [p.2])

/-- An observable file write: the name the file is opened with, the open
mode, and the full content written through the handle. -/
structure FileWrite where
  name : String
  mode : String
  content : String

/-- The writes of one output line (lines 91-92 and 94-95): each loss string
followed by one space, concatenated in list order. -/
def joinLosses (losses : List String) : String :=
  losses.foldl (fun acc loss => acc ++ loss ++ (" ")) ("")

/-- Embedding of the source `main` (lines 73-96): run the sampling loop, then
open `wifi_signal_simulator.out` in mode `"w"` and write line 1 (the AP1
losses, each followed by a space), a newline, and line 2 (the AP2 losses,
each followed by a space, with nothing after the final space). -/
noncomputable def main (ap_distance train_distance train_velocity granularity : ℝ)
    (sample_count mantissa_length : ℕ) : Except String FileWrite :=
  (lossLoop ap_distance train_distance train_velocity granularity mantissa_length sample_count).bind
    fun lists => Except.ok
      ⟨("wifi_signal_simulator.out"), ("w"),
        joinLosses lists.1 ++ ("\n") ++ joinLosses lists.2⟩

lemma samplePair_ok {A D V g : ℝ} (hD : 0 < D) (m t : ℕ) :
    samplePair A D V g m t =
      Except.ok (fmtFixed m (fslFormula 0.12491 (hypot D (V * ((t : ℝ) * g)))),
                 fmtFixed m (fslFormula 0.12491 (hypot D (A - V * ((t : ℝ) * g))))) := by
  unfold samplePair
  rw [csd_one, ok_bind, cfs_24_ok (hypot_pos hD _), ok_bind,
    csd_two, ok_bind, cfs_24_ok (hypot_pos hD _), ok_bind]

lemma lossLoop_ok {A D V g : ℝ} (hD : 0 < D) (m : ℕ) : ∀ n : ℕ,
    lossLoop A D V g m n =
      Except.ok
        ((List.range n).map fun t : ℕ =>
            fmtFixed m (fslFormula 0.12491 (hypot D (V * ((t : ℝ) * g)))),
         (List.range n).map fun t : ℕ =>
            fmtFixed m (fslFormula 0.12491 (hypot D (A - V * ((t : ℝ) * g))))) := by
  intro n
  induction n with
  | zero => rfl
  | succ t ih =>
    show (lossLoop A D V g m t).bind _ = _
    rw [ih, ok_bind, samplePair_ok hD, ok_bind, List.range_succ]
    simp

/-- C7: for a valid configuration (positive cross-track distance) the driver
loop succeeds and produces exactly two sequences, each with one entry per
sample index in ascending order; the entry at index i is the loss at time
`i * granularity` for the corresponding AP, and every formatted value carries
exactly `mantissa_length` digits after the decimal point. -/
theorem c7_driver_sequences (A D V g : ℝ) (n m : ℕ) (hD : 0 < D) :
    ∃ L1 L2 : List String,
      lossLoop A D V g m n = Except.ok (L1, L2) ∧
      L1.length = n ∧ L2.length = n ∧
      (∀ i : ℕ, i < n →
        L1[i]? = some (fmtFixed m (fslFormula 0.12491 (hypot D (V * ((i : ℝ) * g))))) ∧
        L2[i]? = some (fmtFixed m (fslFormula 0.12491 (hypot D (A - V * ((i : ℝ) * g)))))) ∧
      (∀ x : ℝ, ∃ p q : List Char, (fmtFixed m x).data = p ++ ('.') :: q ∧
        q.length = m ∧ (∀ c ∈ q, c.isDigit = true) ∧ ('.') ∉ p) := by
  refine ⟨_, _, lossLoop_ok hD m n, by simp, by simp, ?_, fun x => fmtFixed_decompose m x⟩
  intro i hi
  rw [List.getElem?_map, List.getElem?_map, List.getElem?_range hi]
  exact ⟨rfl, rfl⟩

/-- Witness for C7 with the suggested run values, two samples, three digits. -/
theorem c7_driver_sequences_witness :
    ∃ L1 L2 : List String,
      lossLoop 100 10 92 0.001 3 2 = Except.ok (L1, L2) ∧
      L1.length = 2 ∧ L2.length = 2 ∧
      (∀ i : ℕ, i < 2 →
        L1[i]? = some (fmtFixed 3 (fslFormula 0.12491 (hypot 10 (92 * ((i : ℝ) * 0.001))))) ∧
        L2[i]? = some (fmtFixed 3 (fslFormula 0.12491 (hypot 10 (100 - 92 * ((i : ℝ) * 0.001)))))) ∧
      (∀ x : ℝ, ∃ p q : List Char, (fmtFixed 3 x).data = p ++ ('.') :: q ∧
        q.length = 3 ∧ (∀ c ∈ q, c.isDigit = true) ∧ ('.') ∉ p) :=
  c7_driver_sequences 100 10 92 0.001 2 3 (by norm_num)

lemma foldl_join_chars (L : List String) (acc : String) {c : Char}
    (hc : c ∈ (L.foldl (fun a loss => a ++ loss ++ (" ")) acc).data) :
    c ∈ acc.data ∨ (∃ s ∈ L, c ∈ s.data) ∨ c = (' ') := by
  induction L generalizing acc with
  | nil =>
    exact Or.inl hc
  | cons s L ih =>
    rcases ih (acc ++ s ++ (" ")) hc with h | h | h
    · rw [String.data_append, String.data_append, List.mem_append, List.mem_append] at h
      rcases h with (h | h) | h
      · exact Or.inl h
      · exact Or.inr (Or.inl ⟨s, List.mem_cons_self s L, h⟩)
      · rw [List.mem_singleton] at h
        exact Or.inr (Or.inr h)
    · obtain ⟨u, hu, hcu⟩ := h
      exact Or.inr (Or.inl ⟨u, List.mem_cons_of_mem s hu, hcu⟩)
    · exact Or.inr (Or.inr h)

lemma joinLosses_no_newline {L : List String}
    (hL : ∀ s ∈ L, ∀ c ∈ s.data, c.isDigit = true ∨ c = ('-') ∨ c = ('.')) :
    ('\n') ∉ (joinLosses L).data := by
  intro hmem
  unfold joinLosses at hmem
  rcases foldl_join_chars L ("") hmem with h | ⟨s, hs, hcs⟩ | h
  · exact absurd h (List.not_mem_nil _)
  · rcases hL s hs _ hcs with h | h | h
    · exact absurd h (by decide)
    · exact absurd h (by decide)
    · exact absurd h (by decide)
  · exact absurd h (by decide)

lemma map_fmtFixed_no_newline {α : Type} (l : List α) (f : α → ℝ) (m : ℕ) :
    ∀ s ∈ l.map fun a => fmtFixed m (f a), ∀ c ∈ s.data,
      c.isDigit = true ∨ c = ('-') ∨ c = ('.') := by
  intro s hs c hc
  rw [List.mem_map] at hs
  obtain ⟨a, _, rfl⟩ := hs
  exact fmtFixed_chars hc

/-- C8: for a valid configuration, `main` writes the file
`wifi_signal_simulator.out` in overwrite mode `"w"`, whose content is the AP1
losses each followed by a space, one newline, then the AP2 losses each
followed by a space; neither joined line contains a newline, so the file has
exactly two lines and no trailing newline after the final value. -/
theorem c8_output_file (A D V g : ℝ) (n m : ℕ) (hD : 0 < D) :
    ∃ L1 L2 : List String,
      lossLoop A D V g m n = Except.ok (L1, L2) ∧
      main A D V g n m = Except.ok
        ⟨("wifi_signal_simulator.out"), ("w"),
          joinLosses L1 ++ ("\n") ++ joinLosses L2⟩ ∧
      ('\n') ∉ (joinLosses L1).data ∧ ('\n') ∉ (joinLosses L2).data := by
  refine ⟨_, _, lossLoop_ok hD m n, ?_, ?_, ?_⟩
  · unfold main
    rw [lossLoop_ok hD m n, ok_bind]
  · exact joinLosses_no_newline (map_fmtFixed_no_newline _ _ _)
  · exact joinLosses_no_newline (map_fmtFixed_no_newline _ _ _)

/-- Witness for C8 with the suggested run values, two samples, three digits. -/
theorem c8_output_file_witness :
    ∃ L1 L2 : List String,
      lossLoop 100 10 92 0.001 3 2 = Except.ok (L1, L2) ∧
      main 100 10 92 0.001 2 3 = Except.ok
        ⟨("wifi_signal_simulator.out"), ("w"),
          joinLosses L1 ++ ("\n") ++ joinLosses L2⟩ ∧
      ('\n') ∉ (joinLosses L1).data ∧ ('\n') ∉ (joinLosses L2).data :=
  c8_output_file 100 10 92 0.001 2 3 (by norm_num)

/-- How a process run ended: a clean exit with a status code, or an uncaught
exception carrying its message. -/
inductive Outcome where
  | exited (code : ℕ)
  | raised (message : String)

/-- What a process run observably did: the lines it printed to standard
output, the file writes it performed, and how it ended. -/
structure RunResult where
  stdout : List String
  files : List FileWrite
  outcome : Outcome

/-- The four lines printed by `usage` (lines 98-103). -/
def usage (argv0 : String) : List String :=
  [("Usage: \n"),
   argv0 ++ (" <inter-AP-distance> <train-AP-distance> <train-velocity>"),
   ("Suggested values for execution: "),
   argv0 ++ (" 100 10 92")]

/-- Embedding of the `__main__` block (lines 105-113): with other than four
argv entries (the script name plus three arguments), print usage and exit
with status 1; otherwise parse the three arguments as integers and run `main`
with the default granularity 0.001, sample count 5000 and mantissa length 3;
a ValueError from parsing or from `main` is caught, usage is printed, and the
error is re-raised. -/
noncomputable def scriptMain (argv : List String) : RunResult :=
  if argv.length ≠ 4 then
    ⟨usage (argv.headD ("")), [], Outcome.exited 1⟩
  else
    match (argv.getD 1 ("")).toInt?, (argv.getD 2 ("")).toInt?, (argv.getD 3 ("")).toInt? with
    | some a, some d, some v =>
      match main (a : ℝ) (d : ℝ) (v : ℝ) 0.001 5000 3 with
      | Except.ok fw => ⟨[], [fw], Outcome.exited 0⟩
      | Except.error e => ⟨usage (argv.headD ("")), [], Outcome.raised e⟩
    | _, _, _ =>
      ⟨usage (argv.headD ("")), [], Outcome.raised ("invalid literal for int() with base 10")⟩

/-- C9: with a number of argv entries other than four (script name plus three
arguments), the program prints the usage text to standard output, exits with
status 1, raises nothing further, and performs no file write. -/
theorem c9_wrong_arg_count (argv : List String) (h : argv.length ≠ 4) :
    scriptMain argv = ⟨usage (argv.headD ("")), [], Outcome.exited 1⟩ := by
  unfold scriptMain
  rw [if_pos h]

/-- Witness for C9: an invocation with only two arguments after the script
name. -/
theorem c9_wrong_arg_count_witness :
    scriptMain [("wifi_signal_simulator.py"), ("100"), ("10")] =
      ⟨usage ("wifi_signal_simulator.py"), [], Outcome.exited 1⟩ :=
  c9_wrong_arg_count [("wifi_signal_simulator.py"), ("100"), ("10")] (by decide)

/-- C10: at every sample index the driver calls the loss function with the
default band `"2.4"` for both APs, so every value of both output sequences is
the formatting of a 2.4 GHz loss; the `"5.0"` band is never involved. -/
theorem c10_default_band (A D V g : ℝ) (n m : ℕ) (hD : 0 < D) :
    ∃ L1 L2 : List String,
      lossLoop A D V g m n = Except.ok (L1, L2) ∧
      ∀ i : ℕ, i < n →
        (∃ l1 : ℝ,
          compute_free_space_loss (hypot D (V * ((i : ℝ) * g))) ("2.4") = Except.ok l1 ∧
          L1[i]? = some (fmtFixed m l1)) ∧
        (∃ l2 : ℝ,
          compute_free_space_loss (hypot D (A - V * ((i : ℝ) * g))) ("2.4") = Except.ok l2 ∧
          L2[i]? = some (fmtFixed m l2)) := by
  refine ⟨_, _, lossLoop_ok hD m n, ?_⟩
  intro i hi
  refine ⟨⟨_, cfs_24_ok (hypot_pos hD _), ?_⟩, ⟨_, cfs_24_ok (hypot_pos hD _), ?_⟩⟩
  · rw [List.getElem?_map, List.getElem?_range hi]
    rfl
  · rw [List.getElem?_map, List.getElem?_range hi]
    rfl

/-- Witness for C10 with the suggested run values, two samples, three
digits. -/
theorem c10_default_band_witness :
    ∃ L1 L2 : List String,
      lossLoop 100 10 92 0.001 3 2 = Except.ok (L1, L2) ∧
      ∀ i : ℕ, i < 2 →
        (∃ l1 : ℝ,
          compute_free_space_loss (hypot 10 (92 * ((i : ℝ) * 0.001))) ("2.4") = Except.ok l1 ∧
          L1[i]? = some (fmtFixed 3 l1)) ∧
        (∃ l2 : ℝ,
          compute_free_space_loss (hypot 10 (100 - 92 * ((i : ℝ) * 0.001))) ("2.4") = Except.ok l2 ∧
          L2[i]? = some (fmtFixed 3 l2)) :=
  c10_default_band 100 10 92 0.001 2 3 (by norm_num)

end WifiSignalSimulator
